import Mathlib

/-!
Verification of the F1-AI backend core: the turn orchestrator (agentic
tool-dispatch loop of `POST /api/chat`), the enrichment cache around
`_build_race_detail_sync` (`GET /api/race/{year}/{round_num}`), the
background prefetch sweep, and the live-timing websocket registry.

Shallow embedding conventions:
* UTC timestamps are integers (seconds); `isoformat` strings of timestamps
  are abstracted to the numeric value (no claim inspects their text).
* A pandas `Timedelta` is a pair of its numeric value (used for sorting)
  and its `str(...)` rendering (used by the string-formatting helpers).
* `pd.isna` missingness is `Option`.
* External effects (the LLM, FastF1 fetches, wall-clock time, timeouts)
  are supplied by explicit environment records; the embedded functions are
  deterministic in the environment.
-/

namespace F1AI

/-! ## Configuration (`app/config.py`, defaults of the `os.getenv` reads) -/

def TOOL_TIMEOUT_SECONDS : Nat := 30

def FASTF1_TIMEOUT_SECONDS : Nat := 60

def MAX_AGENT_TURNS : Nat := 5

def PREFETCH_RACE_TIMEOUT_SECONDS : Nat := 60

/-! ## Messages and tool calls (LangChain message types as used in routes.py) -/

/-- A tool call requested by the model: `{name, args, id}`.  Arguments are
opaque to the orchestrator, so they are kept as a single string. -/
structure ToolCall where
  name : String
  args : String
  id : String
deriving Repr, DecidableEq

/-- The LangChain message kinds appearing in `langchain_messages`:
`SystemMessage`, `HumanMessage`, `AIMessage` (with its `tool_calls`), and
`ToolMessage tool_call_id content name`. -/
inductive Msg where
  | system (content : String)
  | human (content : String)
  | ai (content : String) (tool_calls : List ToolCall)
  | tool (tool_call_id : String) (content : String) (name : String)
deriving Repr, DecidableEq

/-- One model response from `llm_with_tools.ainvoke`: final `content` text
plus the list of requested `tool_calls` (empty when the answer is plain
text). -/
structure ModelResponse where
  content : String
  tool_calls : List ToolCall
deriving Repr, DecidableEq

/-- A `{role, content}` message of the incoming `ChatRequest.messages`. -/
structure ChatMsg where
  role : String
  content : String
deriving Repr, DecidableEq

/-- The `for msg in request.messages` replay loop of `chat_endpoint`
(routes.py lines 138-142): `user` becomes `HumanMessage`, `assistant`
becomes `AIMessage`, anything else is skipped. -/
def replayMessages : List ChatMsg → List Msg
  | [] => []
  | m :: rest =>
    if m.role = "user" then .human m.content :: replayMessages rest
    else if m.role = "assistant" then .ai m.content [] :: replayMessages rest
    else replayMessages rest

/-- `langchain_messages` as seeded by `chat_endpoint`: the system prompt
followed by the replayed conversation. -/
def buildHistory (systemPrompt : String) (reqMessages : List ChatMsg) : List Msg :=
  Msg.system systemPrompt :: replayMessages reqMessages

/-! ## Tool registry (`app/api/tools.py`: the keys of `TOOL_MAP`) -/

/-- The names of the tools in `TOOL_LIST`; `TOOL_MAP` maps each name to its
handler, so membership here is exactly the `tool_name in TOOL_MAP` test. -/
def TOOL_MAP_NAMES : List String :=
  [ "get_track_conditions"
  , "perform_web_search"
  , "get_sprint_results"
  , "get_sprint_qualifying_results"
  , "get_qualifying_results"
  , "compare_drivers"
  , "get_race_results"
  , "consult_rulebook"
  , "get_driver_standings"
  , "get_constructor_standings"
  , "get_season_schedule"
  , "predict_race_results"
  , "calculate_championship_scenario" ]

/-! ## The agentic loop (`generate` inside `chat_endpoint`) -/

/-- The outcome of `await asyncio.wait_for(asyncio.to_thread(tool.invoke, args))`
for one tool call: the handler returned a value, timed out, or raised. -/
inductive ToolOutcome where
  | ok (result : String)
  | timeout
  | raised (err : String)
deriving Repr, DecidableEq

/-- The orchestrator environment: the model (`llm_with_tools.ainvoke` as a
function of the message list) and the execution outcome of each tool call. -/
structure AgentEnv where
  invoke : List Msg → ModelResponse
  execTool : String → String → ToolOutcome

/-- `tool_name.replace("_", " ").title()` — the friendly name streamed in the
tool start/end markers. -/
def friendlyName (toolName : String) : String :=
  String.intercalate " " ((toolName.splitOn "_").map String.capitalize)

/-- The `content` of the `ToolMessage` for one call (routes.py lines 183-196):
the handler result stringified, or the timeout message, or the error
message. -/
def toolResultText (env : AgentEnv) (tc : ToolCall) : String :=
  match env.execTool tc.name tc.args with
  | .ok r => r
  | .timeout =>
      "Tool '" ++ tc.name ++ "' timed out after " ++ toString TOOL_TIMEOUT_SECONDS
        ++ " seconds. The data source may be slow — try again."
  | .raised e => "Error executing tool '" ++ tc.name ++ "': " ++ e

/-- The `for tool_call in current_response.tool_calls` body (routes.py lines
171-206): for each call whose name is in `TOOL_MAP`, stream the start
marker, execute (result, timeout or error all yield a `ToolMessage`),
append the message, stream the end marker; a name not in `TOOL_MAP` is
skipped entirely.  Returns (appended tool messages, streamed chunks), both
in request order. -/
def execToolCalls (env : AgentEnv) : List ToolCall → List Msg × List String
  | [] => ([], [])
  | tc :: rest =>
    let tail := execToolCalls env rest
    if tc.name ∈ TOOL_MAP_NAMES then
      ( Msg.tool tc.id (toolResultText env tc) tc.name :: tail.1
      , ("[TOOL_START]" ++ friendlyName tc.name ++ "[/TOOL_START]")
          :: ("[TOOL_END]" ++ friendlyName tc.name ++ "[/TOOL_END]") :: tail.2 )
    else tail

/-- The canned notice yielded when `max_turns` is exhausted. -/
def maxTurnsNotice : String :=
  "**System Notice:** Reached the maximum number of reasoning steps. Please try a more specific question."

/-- The `while turn_count < max_turns` loop of `generate`.  `fuel` is the
number of turns still allowed; the result is (final message list, number of
model invocations performed inside the loop, streamed chunks). -/
def agentLoop (env : AgentEnv) (msgs : List Msg) (resp : ModelResponse) :
    Nat → List Msg × Nat × List String
  | 0 => (msgs, 0, [maxTurnsNotice])
  | fuel + 1 =>
    if resp.tool_calls.isEmpty then
      -- CASE B: plain text answer; stream it and stop.
      (msgs, 0, [resp.content])
    else
      -- CASE A: append the intent message, run the tools, append results,
      -- then ask the model again.
      let msgs1 := msgs ++ [Msg.ai resp.content resp.tool_calls]
      let executed := execToolCalls env resp.tool_calls
      let msgs2 := msgs1 ++ executed.1
      let next := agentLoop env msgs2 (env.invoke msgs2) fuel
      (next.1, next.2.1 + 1, executed.2 ++ next.2.2)

/-- The whole `generate` coroutine (routes.py lines 144-218): one initial
model invocation, then the turn loop with `MAX_AGENT_TURNS` turns.  Returns
(final message list, total number of model invocations, streamed chunks). -/
def generate (env : AgentEnv) (maxTurns : Nat) (msgs0 : List Msg) :
    List Msg × Nat × List String :=
  let result := agentLoop env msgs0 (env.invoke msgs0) maxTurns
  (result.1, result.2.1 + 1, result.2.2)

/-! ## Association-list dictionaries

Python `dict`s (the race-detail cache, the websocket room registry, the
static circuit table) are embedded as association lists with first-match
lookup and overwrite-or-append assignment. -/

/-- `d.get(k)`. -/
def alookup {κ ν : Type} [DecidableEq κ] : List (κ × ν) → κ → Option ν
  | [], _ => none
  | p :: rest, k => if p.1 = k then some p.2 else alookup rest k

/-- `d[k] = v`: overwrite an existing key, else append. -/
def ainsert {κ ν : Type} [DecidableEq κ] : List (κ × ν) → κ → ν → List (κ × ν)
  | [], k, v => [(k, v)]
  | p :: rest, k, v => if p.1 = k then (k, v) :: rest else p :: ainsert rest k v

/-! ## Python string primitives

`str.split`, `str.strip` and prefix tests are re-implemented structurally
over character lists so that concrete payloads evaluate inside the kernel. -/

/-- Fuelled worker for `pySplit`; the fuel starts at the string length and
each step consumes at least one character (the separators used are
non-empty). -/
def pySplitFuel (sep : List Char) : Nat → List Char → List Char → List (List Char)
  | _, [], acc => [acc.reverse]
  | 0, cs, acc => [acc.reverse ++ cs]
  | fuel + 1, c :: rest, acc =>
      if sep.isPrefixOf (c :: rest) then
        acc.reverse :: pySplitFuel sep fuel ((c :: rest).drop sep.length) []
      else pySplitFuel sep fuel rest (c :: acc)

/-- Python `s.split(sep)` for a non-empty separator: left-to-right,
non-overlapping. -/
def pySplit (sep : String) (s : String) : List String :=
  (pySplitFuel sep.toList s.toList.length s.toList []).map String.mk

/-- Python `s.strip()`: drop leading and trailing whitespace. -/
def pyStrip (s : String) : String :=
  String.mk
    (((s.toList.dropWhile Char.isWhitespace).reverse.dropWhile Char.isWhitespace).reverse)

/-! ## Circuit metadata (`app/api/circuits.py`)

`CIRCUIT_DATA` is a static table; the embedding takes it as a parameter
(an association list from location key to metadata) and keeps the lookup
logic of `get_circuit_info` verbatim.  `track_length_km` is represented in
metres so the record stays in exact integers. -/

/-- One value of `CIRCUIT_DATA`. -/
structure CircuitInfo where
  circuit_name : String
  track_length_m : Nat
  laps : Nat
  lap_record_time : String
  lap_record_driver : String
  lap_record_year : Nat
  first_gp : Nat
  circuit_type : String
deriving Repr, DecidableEq

/-- `get_circuit_info` (circuits.py lines 270-279): try the full location
string, then the city part before the first comma, stripped. -/
def get_circuit_info (data : List (String × CircuitInfo)) (location : String) :
    Option CircuitInfo :=
  match alookup data location with
  | some c => some c
  | none =>
      let city := pyStrip ((pySplit "," location).headD "")
      alookup data city

/-! ## FastF1 schedule rows and session results (the loader's inputs) -/

/-- A pandas `Timedelta`: its numeric value (for sorting) and its `str(...)`
rendering (for the formatting helpers). -/
structure TD where
  val : Int
  repr : String
deriving Repr, DecidableEq

/-- The `Session{i}` / `Session{i}DateUtc` column pair of a schedule row
(`none` models `pd.isna` / an absent column). -/
structure SessCol where
  name : Option String
  dateUtc : Option Int
deriving Repr, DecidableEq

/-- One row of `fastf1.get_event_schedule(...)`. -/
structure EventRow where
  roundNumber : Nat
  eventName : String
  location : String
  country : String
  eventDate : Int
  sessionCols : List SessCol
deriving Repr, DecidableEq

/-- One row of `session.results` for a race or sprint session. -/
structure ResRow where
  position : Option Nat
  gridPosition : Option Int
  status : String
  time : Option TD
  abbreviation : String
  firstName : String
  lastName : String
  teamName : String
  points : Option Int
deriving Repr, DecidableEq

/-- One row of qualifying (or sprint-qualifying) `session.results`. -/
structure QRow where
  abbreviation : String
  firstName : String
  lastName : String
  teamName : String
  q1 : Option TD
  q2 : Option TD
  q3 : Option TD
deriving Repr, DecidableEq

/-- Qualifying results: which of the Q1/Q2/Q3 columns exist, plus the rows. -/
structure QualiData where
  cols : List String
  rows : List QRow
deriving Repr, DecidableEq

/-- `r[label]` for label `Q1`, `Q2` or `Q3`. -/
def QRow.getQ (r : QRow) (label : String) : Option TD :=
  if label = "Q1" then r.q1
  else if label = "Q2" then r.q2
  else if label = "Q3" then r.q3
  else none

/-! ## The assembled enrichment payload -/

/-- An entry of the `race_results` / `sprint_results` lists. -/
structure ResultEntry where
  position : Option Nat
  driver : String
  full_name : String
  team : String
  grid : Option Int
  time : String
  points : Int
  status : String
deriving Repr, DecidableEq

/-- An entry of a `Q1`/`Q2`/`Q3` qualifying list. -/
structure QualiEntry where
  position : Nat
  driver : String
  full_name : String
  team : String
  time : String
deriving Repr, DecidableEq

/-- The payload dict built by `_build_race_detail_sync` (routes.py lines
467-480); the `qualifying` maps are kept as label-ordered association
lists. -/
structure RaceDetail where
  round : Nat
  name : String
  location : String
  date : Int
  sessions : List (String × Int)
  circuit : Option CircuitInfo
  race_results : Option (List ResultEntry)
  qualifying : Option (List (String × List QualiEntry))
  podium : Option (List ResultEntry)
  is_sprint : Bool
  sprint_results : Option (List ResultEntry)
  sprint_qualifying : Option (List (String × List QualiEntry))
deriving Repr, DecidableEq

/-- What `_build_race_detail_sync` returns: the payload, or the
round-not-found error dict. -/
inductive RaceDetailResult where
  | err (msg : String)
  | ok (detail : RaceDetail)
deriving Repr, DecidableEq

/-- `detail.get("circuit")` on either dict shape. -/
def RaceDetailResult.circuitOf : RaceDetailResult → Option CircuitInfo
  | .err _ => none
  | .ok d => d.circuit

/-! ## Formatting helpers -/

/-- `_fmt_td` (routes.py lines 418-427). -/
def fmt_td : Option TD → String
  | none => "-"
  | some td =>
      let cs := (pyStrip ((pySplit "days" td.repr).getLastD "")).toList
      let cs := if "00:".toList.isPrefixOf cs then cs.drop 3 else cs
      if cs.length > 10 then String.mk (cs.take 9) else String.mk cs

/-- The race-result time/gap formatting (routes.py lines 511-525). -/
def raceTimeString (status : String) (time : Option TD) : String :=
  if status = "Finished" then
    match time with
    | some td =>
        let cs := (pyStrip ((pySplit "days" td.repr).getLastD "")).toList
        let cs := if '.' ∈ cs then cs.take (cs.indexOf '.' + 4) else cs
        let cs := if "00:".toList.isPrefixOf cs then cs.drop 3 else cs
        String.mk cs
    | none => ""
  else if "Lap".toList <:+: status.toList then status
  else "DNF - " ++ status

/-- The sprint-result time formatting (routes.py lines 592-597): `Finished`
uses `_fmt_td`. -/
def sprintTimeString (status : String) (time : Option TD) : String :=
  if status = "Finished" then
    match time with
    | some td => fmt_td (some td)
    | none => ""
  else if "Lap".toList <:+: status.toList then status
  else "DNF - " ++ status

/-! ## Assembling result lists -/

/-- Stable insertion of `x` into a list sorted by `le`. -/
def insertSorted {α : Type} (le : α → α → Bool) (x : α) : List α → List α
  | [] => [x]
  | y :: ys => if le x y then x :: y :: ys else y :: insertSorted le x ys

/-- `sort_values`: a stable sort by `le` (an insertion sort, so that
payloads evaluate inside the kernel). -/
def sortValues {α : Type} (le : α → α → Bool) (l : List α) : List α :=
  l.foldr (insertSorted le) []

/-- `sort_values(by="Position")` ordering: ascending, missing (`NaN`) last. -/
def posLe (a b : Option Nat) : Bool :=
  match a, b with
  | none, none => true
  | none, some _ => false
  | some _, none => true
  | some x, some y => x ≤ y

/-- One output row of the race/sprint results list (routes.py lines
505-536): `timeOf` is the per-session time formatter. -/
def toResultEntry (timeOf : String → Option TD → String) (r : ResRow) : ResultEntry :=
  { position := r.position
  , driver := r.abbreviation
  , full_name := r.firstName ++ " " ++ r.lastName
  , team := r.teamName
  , grid :=
      match r.gridPosition with
      | some g => if g > 0 then some g else none
      | none => none
  , time := timeOf r.status r.time
  , points := r.points.getD 0
  , status := r.status }

/-- The sorted results list of a race or sprint session. -/
def resultsListOf (timeOf : String → Option TD → String) (rows : List ResRow) :
    List ResultEntry :=
  (sortValues (fun a b => posLe a.position b.position) rows).map (toResultEntry timeOf)

/-- The podium (routes.py lines 541-543): entries with a truthy position
`≤ 3`, sorted by position. -/
def podiumOf (entries : List ResultEntry) : List ResultEntry :=
  sortValues (fun a b => a.position.getD 0 ≤ b.position.getD 0)
    (entries.filter (fun e =>
      match e.position with
      | some p => p ≠ 0 && p ≤ 3
      | none => false))

/-- One qualifying segment list (routes.py lines 556-569): rows with a time
in that segment, sorted by it, positions re-numbered from 1. -/
def qualiListOf (data : QualiData) (label : String) : List QualiEntry :=
  let sorted :=
    sortValues
      (fun a b => ((a.getQ label).map TD.val).getD 0 ≤ ((b.getQ label).map TD.val).getD 0)
      (data.rows.filter (fun r => (r.getQ label).isSome))
  sorted.enum.map (fun p =>
    { position := p.1 + 1
    , driver := p.2.abbreviation
    , full_name := p.2.firstName ++ " " ++ p.2.lastName
    , team := p.2.teamName
    , time := fmt_td (p.2.getQ label) })

/-- The qualifying dict (routes.py lines 555-571): a label contributes only
when its column exists and its list is non-empty; an empty dict becomes
`None`. -/
def buildQuali (data : QualiData) : Option (List (String × List QualiEntry)) :=
  let pairs := ["Q1", "Q2", "Q3"].foldl (fun acc label =>
      if label ∈ data.cols then
        let l := qualiListOf data label
        if l.isEmpty then acc else acc ++ [(label, l)]
      else acc) []
  if pairs.isEmpty then none else some pairs

/-! ## The loader `_build_race_detail_sync` -/

/-- The loader's environment: the circuit table, the schedule, the clock,
and the outcome of each upstream FastF1 session fetch (each a function of
year and round; `Except` models the fetch raising). -/
structure CacheEnv where
  circuitData : List (String × CircuitInfo)
  schedule : List EventRow
  now_utc : Int
  raceFetch : Nat → Nat → Except String (List ResRow)
  qualiFetch : Nat → Nat → Except String QualiData
  sprintFetch : Nat → Nat → Except String (List ResRow)
  sprintQualiFetch : Nat → Nat → Except String QualiData

/-- The `sessions` dict of a schedule row (routes.py lines 450-458). -/
def sessionsOf (cols : List SessCol) : List (String × Int) :=
  cols.filterMap (fun c =>
    match c.name, c.dateUtc with
    | some n, some d => some (n, d)
    | _, _ => none)

/-- The race session date as `_build_race_detail_sync` finds it (routes.py
lines 483-489): the first session column named `Race` with a non-missing
date. -/
def raceSessionDateRoutes (cols : List SessCol) : Option Int :=
  (cols.find? (fun c => c.name == some "Race" && c.dateUtc.isSome)).bind (·.dateUtc)

/-- The race session date as `_prefetch_race_details` finds it (main.py
lines 68-74): the first session column named `Race`, whose date may still
be missing (the loop breaks on the name match alone). -/
def raceSessionDateMain (cols : List SessCol) : Option Int :=
  (cols.find? (fun c => c.name == some "Race")).bind (·.dateUtc)

/-- The 3-hour post-race buffer, in seconds. -/
def RACE_BUFFER_SECONDS : Int := 3 * 3600

/-- The `result` dict as first assembled (routes.py lines 467-480): all
enrichment fields still `None`; this is also exactly what is returned when
the race is not yet completed (line 495). -/
def baseDetail (env : CacheEnv) (row : EventRow) (roundNum : Nat) : RaceDetail :=
  let location_str := row.location ++ ", " ++ row.country
  { round := roundNum
  , name := row.eventName
  , location := location_str
  , date := row.eventDate
  , sessions := sessionsOf row.sessionCols
  , circuit := get_circuit_info env.circuitData location_str
  , race_results := none
  , qualifying := none
  , podium := none
  , is_sprint := "Sprint" ∈ row.sessionCols.filterMap (fun c => c.name)
  , sprint_results := none
  , sprint_qualifying := none }

/-- The sprint block of `_build_race_detail_sync` (routes.py lines
576-641): on sprint weekends, load the sprint classification (an empty list
becomes `None`) and sprint qualifying, each in its own try block; otherwise
leave the payload as is. -/
def sprintStage (env : CacheEnv) (year roundNum : Nat) (isSprintWeekend : Bool)
    (r2 : RaceDetail) : RaceDetail :=
  if isSprintWeekend then
    let ra :=
      match env.sprintFetch year roundNum with
      | .error _ => r2
      | .ok rows =>
          let lst := resultsListOf sprintTimeString rows
          { r2 with sprint_results := if lst.isEmpty then none else some lst }
    match env.sprintQualiFetch year roundNum with
    | .error _ => ra
    | .ok qd => { ra with sprint_qualifying := buildQuali qd }
  else r2

/-- `_build_race_detail_sync` (routes.py lines 430-643). -/
def build_race_detail_sync (env : CacheEnv) (year roundNum : Nat) : RaceDetailResult :=
  match env.schedule.find? (fun r => r.roundNumber == roundNum) with
  | none => .err ("Round " ++ toString roundNum ++ " not found for " ++ toString year)
  | some row =>
      let is_sprint_weekend := "Sprint" ∈ row.sessionCols.filterMap (fun c => c.name)
      let base : RaceDetail := baseDetail env row roundNum
      let is_completed : Bool :=
        match raceSessionDateRoutes row.sessionCols with
        | some d => decide (env.now_utc > d + RACE_BUFFER_SECONDS)
        | none => false
      if !is_completed then .ok base
      else
        -- race results (its whole try block, podium included)
        let r1 :=
          match env.raceFetch year roundNum with
          | .error _ => base
          | .ok rows =>
              let lst := resultsListOf raceTimeString rows
              { base with race_results := some lst, podium := some (podiumOf lst) }
        -- qualifying
        let r2 :=
          match env.qualiFetch year roundNum with
          | .error _ => r1
          | .ok qd => { r1 with qualifying := buildQuali qd }
        -- sprint sessions, only on sprint weekends
        .ok (sprintStage env year roundNum is_sprint_weekend r2)

/-! ## The cache and `get_race_detail` -/

/-- `race_detail_cache`, as an association list keyed by `(year, round)`. -/
abbrev Cache := List ((Nat × Nat) × RaceDetail)

/-- Python dict assignment: overwrite an existing key, else append. -/
def cacheInsert (c : Cache) (k : Nat × Nat) (v : RaceDetail) : Cache :=
  ainsert c k v

/-- What `GET /race/{year}/{round_num}` returns: the detail dict, the
structured timeout object (`error` text plus `timeout: true`), or the
generic error dict. -/
inductive RaceApiResponse where
  | detail (d : RaceDetailResult)
  | timeoutObj
  | exn (e : String)
deriving Repr, DecidableEq

/-- `get_race_detail` (routes.py lines 651-680).  `timedOut` says whether
`asyncio.wait_for` expires before `_build_race_detail_sync` returns; in that
case the worker thread keeps running but its result is discarded, so the
cache is left unchanged.  The third component counts loader invocations
started by this call. -/
def get_race_detail (env : CacheEnv) (timedOut : Bool) (cache : Cache)
    (year roundNum : Nat) : RaceApiResponse × Cache × Nat :=
  let cache_key := (year, roundNum)
  match alookup cache cache_key with
  | some d => (.detail (.ok d), cache, 0)
  | none =>
      if timedOut then (.timeoutObj, cache, 1)
      else
        let d := build_race_detail_sync env year roundNum
        match d with
        | .ok detail =>
            if detail.circuit.isSome then
              (.detail d, cacheInsert cache cache_key detail, 1)
            else (.detail d, cache, 1)
        | .err _ => (.detail d, cache, 1)

/-! ## The background prefetch sweep (`main.py::_prefetch_race_details`) -/

/-- One iteration of the prefetch loop body (main.py lines 59-97) for one
schedule row.  `prefetchTimesOut r` says whether the per-round 60 s
`wait_for` expires for round `r`; the second accumulator component records
the rounds for which a loader invocation was started. -/
def prefetchStep (env : CacheEnv) (year : Nat) (prefetchTimesOut : Nat → Bool)
    (acc : Cache × List Nat) (row : EventRow) : Cache × List Nat :=
  let cache_key := (year, row.roundNumber)
  if (alookup acc.1 cache_key).isSome then acc
  else
    match raceSessionDateMain row.sessionCols with
    | none => acc
    | some d =>
        if env.now_utc ≤ d + RACE_BUFFER_SECONDS then acc
        else if prefetchTimesOut row.roundNumber then
          (acc.1, acc.2 ++ [row.roundNumber])
        else
          match build_race_detail_sync env year row.roundNumber with
          | .ok detail =>
              if detail.circuit.isSome then
                (cacheInsert acc.1 cache_key detail, acc.2 ++ [row.roundNumber])
              else (acc.1, acc.2 ++ [row.roundNumber])
          | .err _ => (acc.1, acc.2 ++ [row.roundNumber])

/-- One sweep of the prefetch loop body (main.py lines 52-97): fold
`prefetchStep` over the schedule starting from the current cache and an
empty load list. -/
def prefetch_sweep (env : CacheEnv) (year : Nat) (prefetchTimesOut : Nat → Bool)
    (cache : Cache) : Cache × List Nat :=
  env.schedule.foldl (prefetchStep env year prefetchTimesOut) (cache, [])

/-! ## The live-timing websocket registry (`routes.py::live_timing`)

Connections are identified by numeric ids; `_live_connections` maps a room
key to its subscriber list.  The poll loop itself never touches the
registry, so the registry-relevant behaviour of the handler is the
registration on accept and the `finally` deregistration, reached on every
exit path (client disconnect or any raised error). -/

/-- `_live_connections`. -/
abbrev Rooms := List (String × List Nat)

/-- `room = f"{year}-{round_num}"`. -/
def roomKey (year roundNum : Nat) : String :=
  toString year ++ "-" ++ toString roundNum

/-- Apply `f` to the subscriber list of `room` (in-place dict mutation). -/
def roomsUpdate (rooms : Rooms) (room : String) (f : List Nat → List Nat) : Rooms :=
  rooms.map (fun p => if p.1 = room then (p.1, f p.2) else p)

/-- Lines 892-894: create the room with an empty list if absent, then
append the connection. -/
def wsRegister (rooms : Rooms) (room : String) (ws : Nat) : Rooms :=
  let rooms1 := if (alookup rooms room).isSome then rooms else rooms ++ [(room, [])]
  roomsUpdate rooms1 room (fun l => l ++ [ws])

/-- The `finally` block (lines 919-923): if the room exists, rebuild its
list without this connection; the key itself is never removed. -/
def wsDeregister (rooms : Rooms) (room : String) (ws : Nat) : Rooms :=
  if (alookup rooms room).isSome then
    roomsUpdate rooms room (fun l => l.filter (fun w => w ≠ ws))
  else rooms

/-- Why the handler's loop ended: the client disconnected, or some
unrecoverable error was raised.  Both are swallowed by the
`except (WebSocketDisconnect, Exception)` clause and flow into `finally`. -/
inductive ExitCause where
  | disconnect
  | error (e : String)
deriving Repr, DecidableEq

/-- The registry effect of one complete `live_timing` connection lifecycle:
register on accept, then — whatever the body did and however it exited —
deregister in `finally`. -/
def live_timing_run (rooms : Rooms) (room : String) (ws : Nat)
    (_cause : ExitCause) : Rooms :=
  wsDeregister (wsRegister rooms room ws) room ws

/-! ## The global FastF1 lock (`_fastf1_lock`) as an interleaving machine

`_build_race_detail_sync` wraps each individual session load in
`with _fastf1_lock:` — the lock is taken and released once per upstream
fetch, not once per loader execution.  The machine below runs one atomic
action per scheduler step; a schedule that picks a thread whose next action
is not enabled (acquiring a held lock, or touching a lock it does not hold)
is rejected. -/

/-- The atomic actions of a loader thread: take the lock, start and finish
one upstream session fetch (`R`, `Q`, `S`, `SQ`), release the lock. -/
inductive LAct where
  | acquire
  | fetchStart (s : String)
  | fetchEnd (s : String)
  | release
deriving Repr, DecidableEq

/-- State of the lock machine: who holds `_fastf1_lock`, each thread's
remaining program, and the event trace so far. -/
structure LockState where
  lockHolder : Option Nat
  progs : List (List LAct)
  trace : List (Nat × LAct)
deriving Repr, DecidableEq

/-- One scheduler step: run thread `t`'s next action when enabled. -/
def lstep (st : LockState) (t : Nat) : Option LockState :=
  match st.progs.get? t with
  | none => none
  | some [] => none
  | some (a :: rest) =>
      let fire (newHolder : Option Nat) : LockState :=
        { lockHolder := newHolder
        , progs := st.progs.set t rest
        , trace := st.trace ++ [(t, a)] }
      match a with
      | .acquire => if st.lockHolder = none then some (fire (some t)) else none
      | .fetchStart _ => if st.lockHolder = some t then some (fire st.lockHolder) else none
      | .fetchEnd _ => if st.lockHolder = some t then some (fire st.lockHolder) else none
      | .release => if st.lockHolder = some t then some (fire none) else none

/-- Run a whole schedule; `none` when some step was not enabled. -/
def lrun (st : LockState) : List Nat → Option LockState
  | [] => some st
  | t :: sched => (lstep st t).bind (fun st2 => lrun st2 sched)

/-- One `with _fastf1_lock:` block around the session fetch `s`. -/
def withLock (s : String) : List LAct :=
  [.acquire, .fetchStart s, .fetchEnd s, .release]

/-- The lock actions of one `_build_race_detail_sync` execution on a
completed round: race then qualifying, plus the sprint pair on sprint
weekends — each fetch under its own lock acquisition. -/
def loaderProg (sprintWeekend : Bool) : List LAct :=
  withLock "R" ++ withLock "Q" ++
    (if sprintWeekend then withLock "S" ++ withLock "SQ" else [])

/-- Programs built from complete `with`-blocks (a thread at a block
boundary). -/
inductive WFProg : List LAct → Prop
  | nil : WFProg []
  | block (s : String) (rest : List LAct) : WFProg rest →
      WFProg (.acquire :: .fetchStart s :: .fetchEnd s :: .release :: rest)

/-- The three mid-block shapes of a thread currently holding the lock. -/
inductive InLock : List LAct → Prop
  | beforeFetch (s : String) (rest : List LAct) : WFProg rest →
      InLock (.fetchStart s :: .fetchEnd s :: .release :: rest)
  | midFetch (s : String) (rest : List LAct) : WFProg rest →
      InLock (.fetchEnd s :: .release :: rest)
  | afterFetch (rest : List LAct) : WFProg rest →
      InLock (.release :: rest)

/-- The machine invariant: the thread holding the lock is mid-block; every
other thread is at a block boundary. -/
def LockInv (st : LockState) : Prop :=
  ∀ t p, st.progs.get? t = some p →
    (st.lockHolder = some t → InLock p) ∧ (st.lockHolder ≠ some t → WFProg p)

/-- Thread `t` currently has an upstream fetch in flight: it has fired
`fetchStart` and not yet `fetchEnd`. -/
def MidFetch (st : LockState) (t : Nat) : Prop :=
  ∃ s rest, st.progs.get? t = some (LAct.fetchEnd s :: rest)

/-- Did some event of thread `u` land strictly between two events of thread
`t`?  (The loader executions of `t` and `u` overlapped in time.) -/
def interleaved (tids : List Nat) (t u : Nat) : Bool :=
  (((tids.dropWhile (fun x => x ≠ t)).dropWhile (fun x => x ≠ u)).contains t)

/-! ## Two concurrent cache misses (`get_race_detail` without a re-check)

`get_race_detail` checks the cache on the event loop, then awaits the
loader on a worker thread, then stores — with no lock around the three
steps and no second cache check.  The machine below interleaves several
such request tasks at those three suspension points. -/

/-- One in-flight `GET /race/...` task: which key it serves, its program
counter (0 = about to check the cache, 1 = loader awaited, 2 = about to
store and return, 3 = finished), and the loader result it is carrying. -/
structure MissTask where
  key : Nat × Nat
  pc : Nat
  detail : Option RaceDetailResult
deriving Repr, DecidableEq

/-- State of the request-interleaving machine. -/
structure MissState where
  cache : Cache
  loaderCalls : Nat
  tasks : List MissTask
deriving Repr, DecidableEq

/-- One step of task `t`: the cache check (routes.py line 663), the awaited
`_build_race_detail_sync` (line 667), or the conditional store and return
(lines 671-674). -/
def missStep (env : CacheEnv) (st : MissState) (t : Nat) : Option MissState :=
  match st.tasks.get? t with
  | none => none
  | some task =>
      match task.pc with
      | 0 =>
          if (alookup st.cache task.key).isSome then
            some { st with tasks := st.tasks.set t { task with pc := 3 } }
          else
            some { st with tasks := st.tasks.set t { task with pc := 1 } }
      | 1 =>
          some { st with
            loaderCalls := st.loaderCalls + 1
            tasks := st.tasks.set t
              { task with
                pc := 2
                detail := some (build_race_detail_sync env task.key.1 task.key.2) } }
      | 2 =>
          let cache2 :=
            match task.detail with
            | some (.ok d) =>
                if d.circuit.isSome then cacheInsert st.cache task.key d else st.cache
            | _ => st.cache
          some { st with
            cache := cache2
            tasks := st.tasks.set t { task with pc := 3 } }
      | _ => none

/-- Run a schedule of request-task steps. -/
def missRun (env : CacheEnv) (st : MissState) : List Nat → Option MissState
  | [] => some st
  | t :: sched => (missStep env st t).bind (fun st2 => missRun env st2 sched)

/-! ## Concrete scenario data (used by witnesses and counterexamples) -/

/-- The `Sakhir` entry of `CIRCUIT_DATA` (circuits.py lines 11-18). -/
def bahrainCircuit : CircuitInfo :=
  { circuit_name := "Bahrain International Circuit"
  , track_length_m := 5412
  , laps := 57
  , lap_record_time := "1:31.447"
  , lap_record_driver := "Pedro de la Rosa"
  , lap_record_year := 2005
  , first_gp := 2004
  , circuit_type := "Purpose-built" }

/-- A one-entry slice of the circuit table. -/
def sampleCircuitData : List (String × CircuitInfo) := [("Sakhir", bahrainCircuit)]

/-- A schedule row for round 7, a conventional weekend whose race session
starts at time 1000000. -/
def round7Row : EventRow :=
  { roundNumber := 7
  , eventName := "Bahrain Grand Prix"
  , location := "Sakhir"
  , country := "Bahrain"
  , eventDate := 1000000
  , sessionCols :=
      [ { name := some "Practice 1", dateUtc := some 800000 }
      , { name := some "Practice 2", dateUtc := some 820000 }
      , { name := some "Practice 3", dateUtc := some 900000 }
      , { name := some "Qualifying", dateUtc := some 920000 }
      , { name := some "Race", dateUtc := some 1000000 } ] }

/-- Two race classification rows. -/
def sampleRaceRows : List ResRow :=
  [ { position := some 1
    , gridPosition := some 2
    , status := "Finished"
    , time := some { val := 5710123, repr := "0 days 01:35:10.123000" }
    , abbreviation := "VER"
    , firstName := "Max"
    , lastName := "Verstappen"
    , teamName := "Red Bull Racing"
    , points := some 25 }
  , { position := some 2
    , gridPosition := some 1
    , status := "Finished"
    , time := some { val := 5715456, repr := "0 days 01:35:15.456000" }
    , abbreviation := "LEC"
    , firstName := "Charles"
    , lastName := "Leclerc"
    , teamName := "Ferrari"
    , points := some 18 } ]

/-- A one-row qualifying classification. -/
def sampleQuali : QualiData :=
  { cols := ["Q1", "Q2", "Q3"]
  , rows :=
      [ { abbreviation := "VER"
        , firstName := "Max"
        , lastName := "Verstappen"
        , teamName := "Red Bull Racing"
        , q1 := some { val := 90500, repr := "0 days 00:01:30.500000" }
        , q2 := some { val := 90300, repr := "0 days 00:01:30.300000" }
        , q3 := some { val := 90100, repr := "0 days 00:01:30.100000" } } ] }

/-- A loader environment observed after round 7's race plus the 3-hour
buffer, with both sub-fetches succeeding. -/
def envDone : CacheEnv :=
  { circuitData := sampleCircuitData
  , schedule := [round7Row]
  , now_utc := 1000000 + RACE_BUFFER_SECONDS + 1
  , raceFetch := fun _ _ => .ok sampleRaceRows
  , qualiFetch := fun _ _ => .ok sampleQuali
  , sprintFetch := fun _ _ => .error "not a sprint weekend"
  , sprintQualiFetch := fun _ _ => .error "not a sprint weekend" }

/-- The same environment observed while the post-race buffer has not yet
elapsed (`now_utc` is exactly at the 3-hour mark, so `now > race + 3h`
fails). -/
def envNotDone : CacheEnv := { envDone with now_utc := 1000000 + RACE_BUFFER_SECONDS }

/-- `envDone` with the qualifying sub-fetch raising. -/
def envQualiFails : CacheEnv :=
  { envDone with qualiFetch := fun _ _ => .error "IndexError" }

/-! ## Claim C10 — role filtering in `chat_endpoint` -/

/-- C10: when building the model message history from the submitted
conversation, only messages whose role is exactly `user` or `assistant`
are included (as `HumanMessage` resp. `AIMessage`, in order, after the
system prompt); a message with any other role is silently dropped. -/
theorem chat_endpoint_role_filter (systemPrompt : String) (msgs : List ChatMsg) :
    buildHistory systemPrompt msgs =
      Msg.system systemPrompt ::
        (msgs.filter (fun m => m.role == "user" || m.role == "assistant")).map
          (fun m => if m.role = "user" then Msg.human m.content
                    else Msg.ai m.content []) := by
  unfold buildHistory
  congr 1
  induction msgs with
  | nil => rfl
  | cons m rest ih =>
      by_cases hu : m.role = "user"
      · simp [replayMessages, hu, ih]
      · by_cases ha : m.role = "assistant"
        · simp [replayMessages, hu, ha, ih]
        · simp [replayMessages, hu, ha, ih]

/-! ## Claim C2 — bound on model invocations -/

/-- The loop performs at most `fuel` model invocations. -/
lemma agentLoop_invocations_le (env : AgentEnv) :
    ∀ (fuel : Nat) (msgs : List Msg) (resp : ModelResponse),
      (agentLoop env msgs resp fuel).2.1 ≤ fuel := by
  intro fuel
  induction fuel with
  | zero => intro msgs resp; simp [agentLoop]
  | succ n ih =>
      intro msgs resp
      by_cases h : resp.tool_calls.isEmpty
      · simp [agentLoop, h]
      · simp only [agentLoop, h, if_false, Bool.false_eq_true]
        exact Nat.succ_le_succ (ih _ _)

/-- C2: for every conversation, the total number of model invocations made
by `generate` is at most `max_turns + 1`; with the default
`MAX_AGENT_TURNS = 5` that is at most 6, however many tool-call responses
the model produces. -/
theorem generate_invocations_le (env : AgentEnv) (maxTurns : Nat) (msgs0 : List Msg) :
    (generate env maxTurns msgs0).2.1 ≤ maxTurns + 1 ∧
      (generate env MAX_AGENT_TURNS msgs0).2.1 ≤ 6 := by
  constructor
  · exact Nat.succ_le_succ (agentLoop_invocations_le env maxTurns msgs0 _)
  · exact Nat.succ_le_succ (agentLoop_invocations_le env MAX_AGENT_TURNS msgs0 _)

/-! ## Claim C1 — one ToolMessage per requested call (corrected) -/

/-- The number of `ToolMessage`s in a message list. -/
def countToolMsgs (msgs : List Msg) : Nat :=
  (msgs.filter (fun m => match m with | .tool _ _ _ => true | _ => false)).length

/-- An orchestrator environment whose model immediately answers in plain
text after the first tool round, and whose tools always succeed. -/
def C1env : AgentEnv :=
  { invoke := fun _ => { content := "done", tool_calls := [] }
  , execTool := fun _ _ => .ok "ok" }

/-- A model response requesting one call to a name that is not in
`TOOL_MAP`. -/
def C1resp : ModelResponse :=
  { content := ""
  , tool_calls := [{ name := "made_up_tool", args := "", id := "call_1" }] }

/-- C1 as stated is false: a response requesting N = 1 capability calls can
lead to 0 capability-result messages being appended, because a call whose
name is not in `TOOL_MAP` is skipped with no `ToolMessage` (routes.py line
176 has no else-branch). -/
theorem C1_unknown_tool_counterexample :
    countToolMsgs (agentLoop C1env [] C1resp MAX_AGENT_TURNS).1 = 0 ∧
      C1resp.tool_calls.length = 1 := by decide

/-- C1 amended: for every model response, the orchestrator appends exactly
one `ToolMessage` per requested call whose name is in `TOOL_MAP`, with the
matching call-id and in request order — even when every call fails or times
out; calls with unknown names are silently skipped. -/
theorem execToolCalls_appends_per_known_call (env : AgentEnv) (calls : List ToolCall) :
    (execToolCalls env calls).1 =
      (calls.filter (fun tc => decide (tc.name ∈ TOOL_MAP_NAMES))).map
        (fun tc => Msg.tool tc.id (toolResultText env tc) tc.name) := by
  induction calls with
  | nil => rfl
  | cons tc rest ih =>
      by_cases h : tc.name ∈ TOOL_MAP_NAMES
      · simp [execToolCalls, h, ih]
      · simp [execToolCalls, h, ih]

/-! ## Dictionary lemmas -/

lemma alookup_ainsert_self {κ ν : Type} [DecidableEq κ] (d : List (κ × ν)) (k : κ) (v : ν) :
    alookup (ainsert d k v) k = some v := by
  induction d with
  | nil => simp [ainsert, alookup]
  | cons p rest ih =>
      by_cases h : p.1 = k
      · simp [ainsert, alookup, h]
      · simp [ainsert, alookup, h, ih]

lemma alookup_ainsert_other {κ ν : Type} [DecidableEq κ] (d : List (κ × ν)) (k k' : κ)
    (v : ν) (h : k' ≠ k) : alookup (ainsert d k v) k' = alookup d k' := by
  induction d with
  | nil => simp [ainsert, alookup, Ne.symm h]
  | cons p rest ih =>
      by_cases hp : p.1 = k
      · have hpk : p.1 ≠ k' := by rw [hp]; exact Ne.symm h
        simp [ainsert, alookup, hp, hpk, Ne.symm h]
      · simp [ainsert, alookup, hp, ih]

lemma alookup_append {κ ν : Type} [DecidableEq κ] (xs ys : List (κ × ν)) (k : κ) :
    alookup (xs ++ ys) k =
      match alookup xs k with
      | some v => some v
      | none => alookup ys k := by
  induction xs with
  | nil => simp [alookup]
  | cons p rest ih =>
      by_cases h : p.1 = k
      · simp [alookup, h]
      · simp [alookup, h, ih]

lemma alookup_roomsUpdate (rooms : Rooms) (room : String) (f : List Nat → List Nat) :
    alookup (roomsUpdate rooms room f) room = (alookup rooms room).map f := by
  induction rooms with
  | nil => rfl
  | cons p rest ih =>
      unfold roomsUpdate at ih ⊢
      by_cases h : p.1 = room
      · simp [alookup, h]
      · simp [alookup, h, ih]

/-- Registering always leaves the room mapped to its old list with the new
connection appended. -/
lemma alookup_wsRegister (rooms : Rooms) (room : String) (ws : Nat) :
    alookup (wsRegister rooms room ws) room =
      some ((alookup rooms room).getD [] ++ [ws]) := by
  unfold wsRegister
  by_cases h : (alookup rooms room).isSome
  · obtain ⟨l, hl⟩ := Option.isSome_iff_exists.mp h
    simp [h, alookup_roomsUpdate, hl]
  · have hnone : alookup rooms room = none := Option.not_isSome_iff_eq_none.mp h
    simp [h, alookup_roomsUpdate, alookup_append, hnone, alookup]

/-! ## Claim C9 — websocket room registry lifecycle -/

/-- C9: the subscriber is registered under its room key on connect, removed
from that room's list on every exit path (disconnect or error alike), the
room key survives with a possibly-empty list, and a room emptied of its
last subscriber is exactly the empty list, never a deleted key. -/
theorem live_timing_registry_lifecycle (rooms : Rooms) (room : String) (ws : Nat)
    (cause : ExitCause) :
    ws ∈ (alookup (wsRegister rooms room ws) room).getD [] ∧
    (alookup (live_timing_run rooms room ws cause) room).isSome ∧
    ws ∉ (alookup (live_timing_run rooms room ws cause) room).getD [] ∧
    (alookup rooms room = none →
      alookup (live_timing_run rooms room ws cause) room = some []) := by
  have hreg := alookup_wsRegister rooms room ws
  have hdereg :
      alookup (live_timing_run rooms room ws cause) room =
        some (((alookup rooms room).getD [] ++ [ws]).filter (fun w => w ≠ ws)) := by
    unfold live_timing_run wsDeregister
    rw [hreg]
    simp [alookup_roomsUpdate, hreg]
  refine ⟨?_, ?_, ?_, ?_⟩
  · rw [hreg]; simp
  · rw [hdereg]; simp
  · rw [hdereg]
    simp [List.mem_filter]
  · intro hnone
    rw [hdereg, hnone]
    simp

/-- Witness for C9 at a concrete fresh registry. -/
theorem live_timing_registry_lifecycle_witness :
    alookup ([] : Rooms) (roomKey 2025 7) = none ∧
      alookup (live_timing_run [] (roomKey 2025 7) 0 .disconnect) (roomKey 2025 7) =
        some [] :=
  ⟨by decide, (live_timing_registry_lifecycle [] (roomKey 2025 7) 0 .disconnect).2.2.2
      (by decide)⟩

/-! ## Claim C7 — caller timeout (corrected) -/

/-- C7 as stated is false in its second half: when the call times out the
caller does receive the structured timeout object, but the in-flight
loader's result is discarded — `race_detail_cache` stays empty, so a future
call for the same key is a miss, not a hit. -/
theorem timeout_leaves_cache_empty_counterexample :
    (get_race_detail envDone true [] 2025 7).1 = .timeoutObj ∧
      (get_race_detail envDone true [] 2025 7).2.1 = ([] : Cache) ∧
      (get_race_detail envDone false [] 2025 7).2.2 = 1 := by decide

/-- C7 amended: on a miss that exceeds the caller timeout, the caller
receives the structured timeout object and the cache is left unchanged
(the worker thread's eventual result is discarded); a later call for the
same key is again a miss that re-invokes the loader. -/
theorem get_race_detail_timeout (env : CacheEnv) (cache : Cache) (year roundNum : Nat)
    (hmiss : alookup cache (year, roundNum) = none) :
    get_race_detail env true cache year roundNum = (.timeoutObj, cache, 1) ∧
      (get_race_detail env false cache year roundNum).2.2 = 1 := by
  constructor
  · simp [get_race_detail, hmiss]
  · simp only [get_race_detail, hmiss]
    rcases build_race_detail_sync env year roundNum with _ | d
    · simp
    · by_cases h : d.circuit.isSome <;> simp [h]

/-- Witness for C7's amended theorem at the concrete environment. -/
theorem get_race_detail_timeout_witness :
    get_race_detail envDone true [] 2025 7 = (.timeoutObj, [], 1) :=
  (get_race_detail_timeout envDone [] 2025 7 (by decide)).1

/-! ## Claim C4 — cache idempotence under sequential calls -/

/-- Any further `get_race_detail` call (any key, any timeout outcome)
leaves an existing cache entry untouched: entries are never mutated or
evicted. -/
lemma get_race_detail_preserves_entries (env : CacheEnv) (t : Bool) (c : Cache)
    (y r : Nat) (k : Nat × Nat) (v : RaceDetail) (hk : alookup c k = some v) :
    alookup (get_race_detail env t c y r).2.1 k = some v := by
  unfold get_race_detail
  rcases hc : alookup c (y, r) with _ | d
  · have hne : k ≠ (y, r) := by
      intro he; rw [he, hc] at hk; exact Option.noConfusion hk
    rcases t with _ | _
    · rcases build_race_detail_sync env y r with _ | d2
      · simpa [hc] using hk
      · by_cases hcirc : d2.circuit.isSome
        · simp [hc, hcirc, cacheInsert, alookup_ainsert_other _ _ _ _ hne, hk]
        · simpa [hc, hcirc] using hk
    · simpa [hc] using hk
  · simpa [hc] using hk

/-- C4: two sequential `get_race_detail` calls for the same key, where the
first succeeds and caches (its payload carries the circuit marker), return
identical payloads and invoke the loader exactly once; and a stored cache
entry is never mutated or evicted by any later call. -/
theorem get_race_detail_idempotent (env : CacheEnv) (cache : Cache) (year roundNum : Nat)
    (t2 : Bool)
    (hmiss : alookup cache (year, roundNum) = none)
    (hcirc : (build_race_detail_sync env year roundNum).circuitOf.isSome) :
    (get_race_detail env false cache year roundNum).1 =
        .detail (build_race_detail_sync env year roundNum) ∧
    (get_race_detail env false cache year roundNum).2.2 = 1 ∧
    (get_race_detail env t2 (get_race_detail env false cache year roundNum).2.1
        year roundNum).1 =
      (get_race_detail env false cache year roundNum).1 ∧
    (get_race_detail env t2 (get_race_detail env false cache year roundNum).2.1
        year roundNum).2.1 =
      (get_race_detail env false cache year roundNum).2.1 ∧
    (get_race_detail env t2 (get_race_detail env false cache year roundNum).2.1
        year roundNum).2.2 = 0 ∧
    (∀ (c : Cache) (y r : Nat) (t : Bool) (v : RaceDetail),
      alookup c (year, roundNum) = some v →
      alookup (get_race_detail env t c y r).2.1 (year, roundNum) = some v) := by
  rcases hb : build_race_detail_sync env year roundNum with m | detail
  · rw [hb] at hcirc; exact absurd hcirc (by simp [RaceDetailResult.circuitOf])
  · rw [hb] at hcirc
    have hcirc2 : detail.circuit.isSome := hcirc
    have hfirst :
        get_race_detail env false cache year roundNum =
          (.detail (.ok detail), cacheInsert cache (year, roundNum) detail, 1) := by
      simp [get_race_detail, hmiss, hb, hcirc2]
    have hhit :
        alookup (cacheInsert cache (year, roundNum) detail) (year, roundNum) =
          some detail := alookup_ainsert_self _ _ _
    refine ⟨by simp [hfirst, hb], by rw [hfirst], ?_, ?_, ?_, ?_⟩
    · rw [hfirst]; simp [get_race_detail, hhit]
    · rw [hfirst]; simp [get_race_detail, hhit]
    · rw [hfirst]; simp [get_race_detail, hhit]
    · intro c y r t v hv
      exact get_race_detail_preserves_entries env t c y r _ v hv

/-- Witness for C4 at the concrete completed-round environment. -/
theorem get_race_detail_idempotent_witness :
    (get_race_detail envDone false [] 2025 7).2.2 = 1 ∧
      (get_race_detail envDone false (get_race_detail envDone false [] 2025 7).2.1
          2025 7).2.2 = 0 := by
  have h := get_race_detail_idempotent envDone [] 2025 7 false (by decide) (by decide)
  exact ⟨h.2.1, h.2.2.2.2.1⟩

/-! ## Claim C6 — no double-checked locking in `get_race_detail` (corrected) -/

/-- Two requests for the same uncached key, both past the initial cache
check before either stores. -/
def C6init : MissState :=
  { cache := []
  , loaderCalls := 0
  , tasks :=
      [ { key := (2025, 7), pc := 0, detail := none }
      , { key := (2025, 7), pc := 0, detail := none } ] }

/-- C6 as stated is false: the code has no lock acquisition or re-check
between the cache miss and the loader call, so a second request whose key
was populated while it awaited still invokes the loader.  In the
interleaving below (check₀, check₁, load₀, store₀, load₁, store₁) the
loader runs twice for one key — the protocol the claim describes would have
absorbed the first writer's store and run it once. -/
theorem missing_recheck_counterexample :
    (missRun envDone C6init [0, 1, 0, 0, 1, 1]).map
        (fun st => (st.loaderCalls, (alookup st.cache (2025, 7)).isSome)) =
      some (2, true) := by decide

/-- C6 amended: on a cache miss (and no timeout), `get_race_detail` invokes
the loader directly — exactly once, with no lock acquisition and no second
presence check — and stores the result under the key iff it carries the
circuit identity marker. -/
theorem get_race_detail_miss_behaviour (env : CacheEnv) (cache : Cache)
    (year roundNum : Nat) (hmiss : alookup cache (year, roundNum) = none) :
    (get_race_detail env false cache year roundNum).2.2 = 1 ∧
    (get_race_detail env false cache year roundNum).1 =
      .detail (build_race_detail_sync env year roundNum) ∧
    (get_race_detail env false cache year roundNum).2.1 =
      (match build_race_detail_sync env year roundNum with
       | .ok d =>
           if d.circuit.isSome then cacheInsert cache (year, roundNum) d else cache
       | .err _ => cache) := by
  rcases hb : build_race_detail_sync env year roundNum with m | d
  · simp [get_race_detail, hmiss, hb]
  · by_cases hcirc : d.circuit.isSome <;> simp [get_race_detail, hmiss, hb, hcirc]

/-- Witness for C6's amended theorem on the fresh cache. -/
theorem get_race_detail_miss_behaviour_witness :
    (get_race_detail envDone false [] 2025 7).2.2 = 1 :=
  (get_race_detail_miss_behaviour envDone [] 2025 7 (by decide)).1

/-- On a miss without timeout, the key ends up mapped to the built payload
exactly when the payload carries the circuit marker. -/
lemma get_race_detail_store (env : CacheEnv) (cache : Cache) (year r : Nat)
    (detail : RaceDetail) (hmiss : alookup cache (year, r) = none)
    (hb : build_race_detail_sync env year r = .ok detail) :
    alookup (get_race_detail env false cache year r).2.1 (year, r) =
      (if detail.circuit.isSome then some detail else none) := by
  by_cases hcirc : detail.circuit.isSome
  · simp [get_race_detail, hmiss, hb, hcirc, cacheInsert, alookup_ainsert_self]
  · simp [get_race_detail, hmiss, hb, hcirc]

/-! ## Claim C3 — pre-buffer requests and the cache (corrected) -/

/-- A prefetch iteration leaves the accumulator untouched for a row whose
race session has not concluded (or has no usable race date). -/
lemma prefetchStep_not_concluded (env : CacheEnv) (year : Nat) (ptO : Nat → Bool)
    (acc : Cache × List Nat) (row : EventRow)
    (h : ∀ d, raceSessionDateMain row.sessionCols = some d →
      env.now_utc ≤ d + RACE_BUFFER_SECONDS) :
    prefetchStep env year ptO acc row = acc := by
  unfold prefetchStep
  by_cases hc : (alookup acc.1 (year, row.roundNumber)).isSome
  · simp [hc]
  · rcases hd : raceSessionDateMain row.sessionCols with _ | d
    · simp [hc, hd]
    · simp [hc, hd, h d hd]

/-- A prefetch iteration for a row of a different round neither touches the
cache entry of round `r` nor records `r` as loaded. -/
lemma prefetchStep_other_round (env : CacheEnv) (year : Nat) (ptO : Nat → Bool)
    (acc : Cache × List Nat) (row : EventRow) (r : Nat) (hne : row.roundNumber ≠ r) :
    alookup (prefetchStep env year ptO acc row).1 (year, r) = alookup acc.1 (year, r) ∧
    (r ∈ (prefetchStep env year ptO acc row).2 ↔ r ∈ acc.2) := by
  unfold prefetchStep
  have hkey : ((year, r) : Nat × Nat) ≠ (year, row.roundNumber) := by
    intro he
    exact hne (congrArg Prod.snd he).symm
  by_cases hc : (alookup acc.1 (year, row.roundNumber)).isSome
  · simp [hc]
  · rcases hd : raceSessionDateMain row.sessionCols with _ | d
    · simp [hc, hd]
    · by_cases ht : env.now_utc ≤ d + RACE_BUFFER_SECONDS
      · simp [hc, hd, ht]
      · by_cases hto : ptO row.roundNumber
        · simp [hc, hd, ht, hto, Ne.symm hne]
        · rcases hb : build_race_detail_sync env year row.roundNumber with m | detail
          · simp [hc, hd, ht, hto, hb, Ne.symm hne]
          · by_cases hcirc : detail.circuit.isSome
            · simp [hc, hd, ht, hto, hb, hcirc, cacheInsert,
                alookup_ainsert_other _ _ _ _ hkey, Ne.symm hne]
            · simp [hc, hd, ht, hto, hb, hcirc, Ne.symm hne]

/-- Folding the sweep over any schedule whose rows for round `r` have all
not yet concluded never loads `r` and never changes its cache entry. -/
lemma sweep_foldl_skips (env : CacheEnv) (year : Nat) (ptO : Nat → Bool) (r : Nat) :
    ∀ (rows : List EventRow) (acc : Cache × List Nat),
      (∀ q ∈ rows, q.roundNumber = r →
        ∀ d, raceSessionDateMain q.sessionCols = some d →
          env.now_utc ≤ d + RACE_BUFFER_SECONDS) →
      r ∉ acc.2 →
      r ∉ (rows.foldl (prefetchStep env year ptO) acc).2 ∧
        alookup (rows.foldl (prefetchStep env year ptO) acc).1 (year, r) =
          alookup acc.1 (year, r) := by
  intro rows
  induction rows with
  | nil => intro acc _ hn; exact ⟨hn, rfl⟩
  | cons q rest ih =>
      intro acc h hn
      rw [List.foldl_cons]
      by_cases hq : q.roundNumber = r
      · rw [prefetchStep_not_concluded env year ptO acc q (h q (by simp) hq)]
        exact ih acc (fun p hp => h p (by simp [hp])) hn
      · obtain ⟨h1, h2⟩ := prefetchStep_other_round env year ptO acc q r hq
        obtain ⟨ih1, ih2⟩ :=
          ih (prefetchStep env year ptO acc q) (fun p hp => h p (by simp [hp]))
            (fun hr => hn (h2.mp hr))
        exact ⟨ih1, ih2.trans h1⟩

/-- C3 as stated is false: a `GET /race/2025/7` issued while round 7's race
ended less than the 3-hour buffer ago DOES populate the cache — with a
payload that carries circuit info but no race results — because
`get_race_detail` caches any payload with circuit info, completed or not. -/
theorem premature_caching_counterexample :
    (alookup (get_race_detail envNotDone false [] 2025 7).2.1 (2025, 7)).map
        (fun p => p.race_results) = some none := by decide

/-- C3 amended: while the concluding race session is less than the 3-hour
buffer in the past, the background sweep does skip the round (no load, no
cache write for its key); but the on-demand endpoint, on a miss, still
returns the results-free base payload and caches it permanently whenever
its circuit marker resolves (and does not cache it otherwise). -/
theorem race_buffer_behaviour (env : CacheEnv) (year : Nat) (ptO : Nat → Bool)
    (cache : Cache) (r : Nat) (row : EventRow)
    (hrow : env.schedule.find? (fun q => q.roundNumber == r) = some row)
    (hmain : ∀ q ∈ env.schedule, q.roundNumber = r →
      ∀ d, raceSessionDateMain q.sessionCols = some d →
        env.now_utc ≤ d + RACE_BUFFER_SECONDS)
    (hroutes : ∀ d, raceSessionDateRoutes row.sessionCols = some d →
      env.now_utc ≤ d + RACE_BUFFER_SECONDS)
    (hmiss : alookup cache (year, r) = none) :
    r ∉ (prefetch_sweep env year ptO cache).2 ∧
    alookup (prefetch_sweep env year ptO cache).1 (year, r) = alookup cache (year, r) ∧
    build_race_detail_sync env year r = .ok (baseDetail env row r) ∧
    (baseDetail env row r).race_results = none ∧
    alookup (get_race_detail env false cache year r).2.1 (year, r) =
      (if (baseDetail env row r).circuit.isSome then some (baseDetail env row r)
       else none) := by
  have hsweep := sweep_foldl_skips env year ptO r env.schedule (cache, []) hmain
    (by simp)
  have hbuild : build_race_detail_sync env year r = .ok (baseDetail env row r) := by
    unfold build_race_detail_sync
    rw [hrow]
    rcases hrd : raceSessionDateRoutes row.sessionCols with _ | d
    · simp [hrd]
    · have hle : ¬ (env.now_utc > d + RACE_BUFFER_SECONDS) :=
        not_lt.mpr (hroutes d hrd)
      simp [hrd, hle]
  exact ⟨hsweep.1, hsweep.2, hbuild, rfl,
    get_race_detail_store env cache year r _ hmiss hbuild⟩

/-- Witness for C3's amended theorem at the concrete pre-buffer moment. -/
theorem race_buffer_behaviour_witness :
    7 ∉ (prefetch_sweep envNotDone 2025 (fun _ => false) []).2 ∧
      build_race_detail_sync envNotDone 2025 7 =
        .ok (baseDetail envNotDone round7Row 7) := by
  have h := race_buffer_behaviour envNotDone 2025 (fun _ => false) [] 7 round7Row
    (by decide)
    (by
      intro q hq hqr d hd
      have hq2 : q = round7Row := by
        simpa [envNotDone, envDone] using hq
      subst hq2
      have h1000 : raceSessionDateMain round7Row.sessionCols = some 1000000 := by
        decide
      rw [h1000] at hd
      cases hd
      decide)
    (by
      intro d hd
      have h1000 : raceSessionDateRoutes round7Row.sessionCols = some 1000000 := by
        decide
      rw [h1000] at hd
      cases hd
      decide)
    (by decide)
  exact ⟨h.1, h.2.2.1⟩

/-! ## Claim C8 — independent sub-fetch failures and the identity marker -/

/-- The sprint block only touches the two sprint result fields. -/
lemma sprintStage_fields (env : CacheEnv) (year r : Nat) (isSprint : Bool)
    (r2 : RaceDetail) :
    (sprintStage env year r isSprint r2).race_results = r2.race_results ∧
    (sprintStage env year r isSprint r2).qualifying = r2.qualifying ∧
    (sprintStage env year r isSprint r2).podium = r2.podium ∧
    (sprintStage env year r isSprint r2).circuit = r2.circuit := by
  unfold sprintStage
  by_cases h : isSprint
  · rcases env.sprintFetch year r with _ | srows <;>
      rcases env.sprintQualiFetch year r with _ | sq <;> simp [h]
  · simp [h]

/-- The sprint-results field of the sprint block depends only on the
sprint-results fetch (given it starts out `None`, as the base payload has
it). -/
lemma sprintStage_sprint_results (env : CacheEnv) (year r : Nat) (isSprint : Bool)
    (r2 : RaceDetail) (h2 : r2.sprint_results = none) :
    (sprintStage env year r isSprint r2).sprint_results =
      (if isSprint then
        match env.sprintFetch year r with
        | .error _ => none
        | .ok rows =>
            if (resultsListOf sprintTimeString rows).isEmpty then none
            else some (resultsListOf sprintTimeString rows)
      else none) := by
  unfold sprintStage
  by_cases h : isSprint
  · rcases env.sprintFetch year r with _ | srows <;>
      rcases env.sprintQualiFetch year r with _ | sq <;> simp [h, h2]
  · simp [h, h2]

/-- The sprint-qualifying field of the sprint block depends only on the
sprint-qualifying fetch (given it starts out `None`). -/
lemma sprintStage_sprint_qualifying (env : CacheEnv) (year r : Nat) (isSprint : Bool)
    (r2 : RaceDetail) (h2 : r2.sprint_qualifying = none) :
    (sprintStage env year r isSprint r2).sprint_qualifying =
      (if isSprint then
        match env.sprintQualiFetch year r with
        | .error _ => none
        | .ok qd => buildQuali qd
      else none) := by
  unfold sprintStage
  by_cases h : isSprint
  · rcases env.sprintFetch year r with _ | srows <;>
      rcases env.sprintQualiFetch year r with _ | sq <;> simp [h, h2]
  · simp [h, h2]

/-- C8: on a found, completed round the loader always returns an assembled
payload in which every sub-result is determined by its own fetch alone —
race results and podium by the race fetch, qualifying by the qualifying
fetch, and the two sprint fields by their fetches (on sprint weekends) —
so any individual sub-fetch failing yields `None` for its field and leaves
every other sub-result intact; the (possibly partial) payload is cached by
the endpoint exactly when the circuit identity marker is present, and, in
general, a payload without the marker is never stored. -/
theorem partial_failure_resilience (env : CacheEnv) (cache : Cache) (year r : Nat)
    (row : EventRow) (d : Int)
    (hrow : env.schedule.find? (fun q => q.roundNumber == r) = some row)
    (hrd : raceSessionDateRoutes row.sessionCols = some d)
    (hgt : env.now_utc > d + RACE_BUFFER_SECONDS)
    (hmiss : alookup cache (year, r) = none) :
    (∃ detail, build_race_detail_sync env year r = .ok detail ∧
      detail.circuit =
        get_circuit_info env.circuitData (row.location ++ ", " ++ row.country) ∧
      detail.race_results =
        (match env.raceFetch year r with
         | .error _ => none
         | .ok rows => some (resultsListOf raceTimeString rows)) ∧
      detail.podium =
        (match env.raceFetch year r with
         | .error _ => none
         | .ok rows => some (podiumOf (resultsListOf raceTimeString rows))) ∧
      detail.qualifying =
        (match env.qualiFetch year r with
         | .error _ => none
         | .ok qd => buildQuali qd) ∧
      detail.sprint_results =
        (if "Sprint" ∈ row.sessionCols.filterMap (fun c => c.name) then
          match env.sprintFetch year r with
          | .error _ => none
          | .ok rows =>
              if (resultsListOf sprintTimeString rows).isEmpty then none
              else some (resultsListOf sprintTimeString rows)
        else none) ∧
      detail.sprint_qualifying =
        (if "Sprint" ∈ row.sessionCols.filterMap (fun c => c.name) then
          match env.sprintQualiFetch year r with
          | .error _ => none
          | .ok qd => buildQuali qd
        else none) ∧
      alookup (get_race_detail env false cache year r).2.1 (year, r) =
        (if detail.circuit.isSome then some detail else none)) ∧
    (∀ (env2 : CacheEnv) (cache2 : Cache) (t : Bool) (y2 r2 : Nat),
      (build_race_detail_sync env2 y2 r2).circuitOf = none →
      (get_race_detail env2 t cache2 y2 r2).2.1 = cache2) := by
  constructor
  · have hbuild : build_race_detail_sync env year r =
        .ok (sprintStage env year r
          ("Sprint" ∈ row.sessionCols.filterMap (fun c => c.name))
          { baseDetail env row r with
              race_results :=
                match env.raceFetch year r with
                | .error _ => none
                | .ok rows => some (resultsListOf raceTimeString rows)
            , podium :=
                match env.raceFetch year r with
                | .error _ => none
                | .ok rows => some (podiumOf (resultsListOf raceTimeString rows))
            , qualifying :=
                match env.qualiFetch year r with
                | .error _ => none
                | .ok qd => buildQuali qd }) := by
      unfold build_race_detail_sync
      rw [hrow]
      rcases hrace : env.raceFetch year r with er | rows <;>
        rcases hquali : env.qualiFetch year r with eqe | qd <;>
          (simp [hrd, hrace, hquali, decide_eq_true hgt]; try rfl)
    obtain ⟨hf1, hf2, hf3, hf4⟩ := sprintStage_fields env year r
      ("Sprint" ∈ row.sessionCols.filterMap (fun c => c.name))
      { baseDetail env row r with
          race_results :=
            match env.raceFetch year r with
            | .error _ => none
            | .ok rows => some (resultsListOf raceTimeString rows)
        , podium :=
            match env.raceFetch year r with
            | .error _ => none
            | .ok rows => some (podiumOf (resultsListOf raceTimeString rows))
        , qualifying :=
            match env.qualiFetch year r with
            | .error _ => none
            | .ok qd => buildQuali qd }
    refine ⟨_, hbuild, ?_, ?_, ?_, ?_, ?_, ?_, ?_⟩
    · rw [hf4]; simp [baseDetail]
    · rw [hf1]
    · rw [hf3]
    · rw [hf2]
    · rw [sprintStage_sprint_results env year r _ _ (by simp [baseDetail])]
      simp
    · rw [sprintStage_sprint_qualifying env year r _ _ (by simp [baseDetail])]
      simp
    · exact get_race_detail_store env cache year r _ hmiss hbuild
  · intro env2 cache2 t y2 r2 hnone
    unfold get_race_detail
    rcases hc : alookup cache2 (y2, r2) with _ | v
    · rcases t with _ | _
      · rcases hb : build_race_detail_sync env2 y2 r2 with m | dd
        · simp [hc, hb]
        · rw [hb] at hnone
          have hdd : dd.circuit = none := hnone
          simp [hc, hb, hdd]
      · simp [hc]
    · simp [hc]

/-- `envDone` with the race-results sub-fetch raising instead. -/
def envRaceFails : CacheEnv :=
  { envDone with raceFetch := fun _ _ => .error "SessionNotAvailableError" }

/-- Witness for C8, applying the theorem at two concrete environments: one
whose qualifying fetch fails (race results kept, qualifying `None`) and one
whose race fetch fails (race results `None`, qualifying kept). -/
theorem partial_failure_resilience_witness :
    (∃ detail, build_race_detail_sync envQualiFails 2025 7 = .ok detail ∧
      detail.race_results = some (resultsListOf raceTimeString sampleRaceRows) ∧
      detail.qualifying = none) ∧
    (∃ detail, build_race_detail_sync envRaceFails 2025 7 = .ok detail ∧
      detail.race_results = none ∧
      detail.qualifying = buildQuali sampleQuali) := by
  constructor
  · have h := partial_failure_resilience envQualiFails [] 2025 7 round7Row 1000000
      (by decide) (by decide) (by decide) (by decide)
    obtain ⟨⟨detail, hb, _, hr, _, hq, _, _, _⟩, _⟩ := h
    refine ⟨detail, hb, ?_, ?_⟩
    · rw [hr]; rfl
    · rw [hq]; rfl
  · have h := partial_failure_resilience envRaceFails [] 2025 7 round7Row 1000000
      (by decide) (by decide) (by decide) (by decide)
    obtain ⟨⟨detail, hb, _, hr, _, hq, _, _, _⟩, _⟩ := h
    refine ⟨detail, hb, ?_, ?_⟩
    · rw [hr]; rfl
    · rw [hq]; rfl

/-! ## Claim C5 — what the global lock does and does not serialize -/

lemma WFProg_acquire_inv {rest : List LAct} (h : WFProg (LAct.acquire :: rest)) :
    InLock rest := by
  cases h with
  | block s rest2 h2 => exact .beforeFetch s rest2 h2

lemma InLock_fetchStart_inv {s : String} {rest : List LAct}
    (h : InLock (LAct.fetchStart s :: rest)) : InLock rest := by
  cases h with
  | beforeFetch s rest2 h2 => exact .midFetch s rest2 h2

lemma InLock_fetchEnd_inv {s : String} {rest : List LAct}
    (h : InLock (LAct.fetchEnd s :: rest)) : InLock rest := by
  cases h with
  | midFetch s rest2 h2 => exact .afterFetch rest2 h2

lemma InLock_release_inv {rest : List LAct} (h : InLock (LAct.release :: rest)) :
    WFProg rest := by
  cases h with
  | afterFetch rest2 h2 => exact h2

/-- One enabled step preserves the lock invariant. -/
lemma lstep_inv (st : LockState) (t : Nat) (st2 : LockState)
    (hinv : LockInv st) (hstep : lstep st t = some st2) : LockInv st2 := by
  unfold lstep at hstep
  rcases hg : st.progs.get? t with _ | p
  · rw [hg] at hstep; exact absurd hstep (by simp)
  · rw [hg] at hstep
    rcases p with _ | ⟨a, rest⟩
    · exact absurd hstep (by simp)
    · have hpre := hinv t (a :: rest) hg
      cases a with
      | acquire =>
          by_cases hh : st.lockHolder = none
          · simp only [hh, eq_self_iff_true, if_true, Option.some.injEq] at hstep
            subst hstep
            intro u p2 hp2
            dsimp only at hp2 ⊢
            by_cases hu : u = t
            · subst hu
              rw [List.get?_set_eq_of_lt _ ((List.get?_eq_some.mp hg).1)] at hp2
              cases hp2
              have hwf : WFProg (LAct.acquire :: rest) :=
                hpre.2 (by rw [hh]; exact fun he => Option.noConfusion he)
              exact ⟨fun _ => WFProg_acquire_inv hwf,
                fun hne => absurd rfl hne⟩
            · rw [List.get?_set_ne _ _ (fun he => hu he.symm)] at hp2
              have hu2 := hinv u p2 hp2
              refine ⟨fun he => absurd (Option.some.inj he).symm hu, fun _ => ?_⟩
              exact hu2.2 (by rw [hh]; exact fun he => Option.noConfusion he)
          · simp [hh] at hstep
      | fetchStart s =>
          by_cases hh : st.lockHolder = some t
          · simp only [hh, eq_self_iff_true, if_true, Option.some.injEq] at hstep
            subst hstep
            intro u p2 hp2
            dsimp only at hp2 ⊢
            by_cases hu : u = t
            · subst hu
              rw [List.get?_set_eq_of_lt _ ((List.get?_eq_some.mp hg).1)] at hp2
              cases hp2
              have hin : InLock (LAct.fetchStart s :: rest) := hpre.1 hh
              exact ⟨fun _ => InLock_fetchStart_inv hin,
                fun hne => absurd rfl hne⟩
            · rw [List.get?_set_ne _ _ (fun he => hu he.symm)] at hp2
              have hu2 := hinv u p2 hp2
              refine ⟨fun he => absurd (Option.some.inj he).symm hu,
                fun hne => hu2.2 (by rw [hh]; exact hne)⟩
          · simp [hh] at hstep
      | fetchEnd s =>
          by_cases hh : st.lockHolder = some t
          · simp only [hh, eq_self_iff_true, if_true, Option.some.injEq] at hstep
            subst hstep
            intro u p2 hp2
            dsimp only at hp2 ⊢
            by_cases hu : u = t
            · subst hu
              rw [List.get?_set_eq_of_lt _ ((List.get?_eq_some.mp hg).1)] at hp2
              cases hp2
              have hin : InLock (LAct.fetchEnd s :: rest) := hpre.1 hh
              exact ⟨fun _ => InLock_fetchEnd_inv hin,
                fun hne => absurd rfl hne⟩
            · rw [List.get?_set_ne _ _ (fun he => hu he.symm)] at hp2
              have hu2 := hinv u p2 hp2
              refine ⟨fun he => absurd (Option.some.inj he).symm hu,
                fun hne => hu2.2 (by rw [hh]; exact hne)⟩
          · simp [hh] at hstep
      | release =>
          by_cases hh : st.lockHolder = some t
          · simp only [hh, eq_self_iff_true, if_true, Option.some.injEq] at hstep
            subst hstep
            intro u p2 hp2
            dsimp only at hp2 ⊢
            by_cases hu : u = t
            · subst hu
              rw [List.get?_set_eq_of_lt _ ((List.get?_eq_some.mp hg).1)] at hp2
              cases hp2
              have hin : InLock (LAct.release :: rest) := hpre.1 hh
              exact ⟨fun he => absurd he (by simp),
                fun _ => InLock_release_inv hin⟩
            · rw [List.get?_set_ne _ _ (fun he => hu he.symm)] at hp2
              have hu2 := hinv u p2 hp2
              refine ⟨fun he => absurd he (by simp), fun _ => ?_⟩
              exact hu2.2 (fun he => hu (Option.some.inj (hh.symm.trans he)).symm)
          · simp [hh] at hstep

/-- Running any schedule preserves the lock invariant. -/
lemma lrun_inv (sched : List Nat) :
    ∀ (st st2 : LockState), LockInv st → lrun st sched = some st2 → LockInv st2 := by
  induction sched with
  | nil =>
      intro st st2 hinv hrun
      cases hrun
      exact hinv
  | cons t rest ih =>
      intro st st2 hinv hrun
      unfold lrun at hrun
      rcases hs : lstep st t with _ | stm
      · rw [hs] at hrun; exact absurd hrun (by simp)
      · rw [hs] at hrun
        exact ih stm st2 (lstep_inv st t stm hinv hs) hrun

/-- Under the invariant, a thread with a fetch in flight holds the lock. -/
lemma midFetch_holder (st : LockState) (hinv : LockInv st) (t : Nat)
    (h : MidFetch st t) : st.lockHolder = some t := by
  obtain ⟨s, rest, hg⟩ := h
  by_cases hh : st.lockHolder = some t
  · exact hh
  · have hwf := (hinv t _ hg).2 hh
    cases hwf

/-- The two-block loader program (a conventional weekend: race then
qualifying) is a sequence of complete lock-guarded fetch blocks. -/
lemma wf_loaderProg_false : WFProg (loaderProg false) := by
  show WFProg
    [LAct.acquire, .fetchStart "R", .fetchEnd "R", .release,
     .acquire, .fetchStart "Q", .fetchEnd "Q", .release]
  exact .block "R" _ (.block "Q" [] .nil)

/-- C5 as stated is false: two loaders serialize only fetch-by-fetch, not
whole-execution.  In the valid schedule below both threads run the
two-block loader; thread 1 completes its race fetch strictly between
thread 0's race fetch and thread 0's qualifying fetch, so two loader
executions are in flight at once and their upstream fetch sequences
interleave. -/
theorem overlapping_loaders_counterexample :
    (lrun { lockHolder := none, progs := [loaderProg false, loaderProg false]
          , trace := [] }
        [0, 0, 0, 0, 1, 1, 1, 1, 0, 0, 0, 0, 1, 1, 1, 1]).map
        (fun st => (st.trace.map Prod.fst, interleaved (st.trace.map Prod.fst) 0 1)) =
      some ([0, 0, 0, 0, 1, 1, 1, 1, 0, 0, 0, 0, 1, 1, 1, 1], true) := by decide

/-- C5 amended: the single global `_fastf1_lock` guards each individual
upstream fetch, so in every valid execution of well-bracketed loader
threads at most one upstream fetch is in flight at any time — but whole
loader executions may overlap, as the counterexample shows. -/
theorem fetch_mutual_exclusion (progs : List (List LAct)) (sched : List Nat)
    (st : LockState)
    (hwf : ∀ p ∈ progs, WFProg p)
    (hrun : lrun { lockHolder := none, progs := progs, trace := [] } sched = some st)
    (t u : Nat) (ht : MidFetch st t) (hu : MidFetch st u) : t = u := by
  have hinv0 : LockInv { lockHolder := none, progs := progs, trace := [] } := by
    intro v p hp
    exact ⟨fun he => absurd he (by simp), fun _ => hwf p (List.get?_mem hp)⟩
  have hinv := lrun_inv sched _ st hinv0 hrun
  have h1 := midFetch_holder st hinv t ht
  have h2 := midFetch_holder st hinv u hu
  exact Option.some.inj (h1.symm.trans h2)

/-- The state after thread 0 acquires the lock and starts its race fetch. -/
def C5midState : LockState :=
  { lockHolder := some 0
  , progs :=
      [ [.fetchEnd "R", .release, .acquire, .fetchStart "Q", .fetchEnd "Q", .release]
      , loaderProg false ]
  , trace := [(0, .acquire), (0, .fetchStart "R")] }

/-- Witness for C5's amended theorem: in the concrete two-loader run where
thread 0 is mid-fetch, the only mid-fetch thread is thread 0 itself. -/
theorem fetch_mutual_exclusion_witness : (0 : Nat) = 0 :=
  fetch_mutual_exclusion [loaderProg false, loaderProg false] [0, 0] C5midState
    (by
      intro p hp
      simp only [List.mem_cons, List.not_mem_nil, or_false] at hp
      rcases hp with rfl | rfl <;> exact wf_loaderProg_false)
    (by decide)
    0 0
    ⟨"R", [.release, .acquire, .fetchStart "Q", .fetchEnd "Q", .release], rfl⟩
    ⟨"R", [.release, .acquire, .fetchStart "Q", .fetchEnd "Q", .release], rfl⟩

end F1AI
